import Mathlib

/-!
Shallow embedding of the document question-answering application
(src/data_utils.py, src/main.py, src/ui.py) for verification.

Python/JSON values are modelled by `PyVal`, Python exceptions by `PyErr`,
and the file system by `Disk`, a map from path strings to a per-file
state (`FileState`).  External collaborators (the embedding model, the
FAISS index construction, the chat-completion chains) are parameters of
the embedded functions, matching the spec's "interfaces only" treatment.
-/

/-- Python exceptions that the embedded code can raise. -/
inductive PyErr where
  | typeError
  | attributeError
  | jsonDecodeError
deriving DecidableEq

/-- JSON-serializable Python values: None, bools, ints, strings, lists and
string-keyed dicts.  This is the value domain of `json.load`/`json.dump`
and of the dictionaries passed around by the answering pipeline. -/
inductive PyVal where
  | none_ : PyVal
  | bool : Bool → PyVal
  | int : Int → PyVal
  | str : String → PyVal
  | list : List PyVal → PyVal
  | dict : List (String × PyVal) → PyVal

/-- Python `d.get(k, default)` on a string-keyed dict. -/
def pyGetD (d : List (String × PyVal)) (k : String) (dflt : PyVal) : PyVal :=
  match d.lookup k with
  | some v => v
  | none => dflt

/-- Python `str(v)`.  The exact repr of containers is never relied on and
is abstracted; strings, ints, bools and None follow Python. -/
def pyStrOf (v : PyVal) : String :=
  match v with
  | .str s => s
  | .int n => toString n
  | .bool b => if b then "True" else "False"
  | .none_ => "None"
  | .list _ => "[repr]"
  | .dict _ => "[repr]"

/-- Python `v.strip()`: defined for strings (whitespace trimming), an
`AttributeError` for every other value — in particular for dicts. -/
def pyStrip (v : PyVal) : Except PyErr PyVal :=
  match v with
  | .str s => .ok (.str s.trim)
  | _ => .error .attributeError

/-- Python truthiness of a value (`bool(v)`). -/
def pyTruthy (v : PyVal) : Bool :=
  match v with
  | .str s => !s.isEmpty
  | .int n => n != 0
  | .bool b => b
  | .list l => !l.isEmpty
  | .dict l => !l.isEmpty
  | .none_ => false

/-- Python `v == s` where `s` is a string literal: string comparison for
strings, `False` for every other value (no exception). -/
def pyEqStr (v : PyVal) (s : String) : Bool :=
  match v with
  | .str t => t == s
  | _ => false

/-- Python iteration over a value (`for x in v` / `tuple(v)` / `list(v)`):
lists yield their elements, strings their one-character substrings, dicts
their keys; ints, bools and None raise `TypeError`. -/
def pyIterElems (v : PyVal) : Except PyErr (List PyVal) :=
  match v with
  | .list l => .ok l
  | .str s => .ok (s.data.map fun c => .str (String.mk [c]))
  | .dict l => .ok (l.map fun p => .str p.1)
  | .none_ => .error .typeError
  | .bool _ => .error .typeError
  | .int _ => .error .typeError

/-- The list comprehension `[tuple(pair) for pair in elems]`: converts each
element to a tuple by iterating it, raising `TypeError` on a non-iterable
element. -/
def pyTupleEach (elems : List PyVal) : Except PyErr (List (List PyVal)) :=
  match elems with
  | [] => .ok []
  | p :: ps =>
    match pyIterElems p with
    | .error e => .error e
    | .ok t =>
      match pyTupleEach ps with
      | .error e => .error e
      | .ok ts => .ok (t :: ts)

/-- State of one path on disk: no file, an existing zero-byte file, an
existing file whose text is not parseable JSON, or a file holding a
parseable JSON value. -/
inductive FileState where
  | absent
  | empty
  | invalid
  | valid : PyVal → FileState

/-- The file system: a map from path strings to file states. -/
def Disk : Type := String → FileState

/-- Write one path of the file system. -/
def updateDisk (disk : Disk) (p : String) (f : FileState) : Disk :=
  fun q => if q = p then f else disk q

/-- `os.path.exists` on the modelled state of a path. -/
def fileExists (f : FileState) : Bool :=
  match f with
  | .absent => false
  | _ => true

/-- Constant `SESSIONS_FILE` of src/data_utils.py. -/
def SESSIONS_FILE : String := "sessions.json"

/-- Constant `CONVERSATION_HISTORY_DIR` of src/data_utils.py. -/
def CONVERSATION_HISTORY_DIR : String := "conversation_histories"

/-- Constant `VECTOR_STORE_DIR` of src/data_utils.py. -/
def VECTOR_STORE_DIR : String := "vector_stores"

/-- Constant `VECTOR_STORE_PATH` of src/data_utils.py:
`os.path.join(VECTOR_STORE_DIR, "embedding")`. -/
def VECTOR_STORE_PATH : String := VECTOR_STORE_DIR ++ "/" ++ "embedding"

/-- `os.path.join(CONVERSATION_HISTORY_DIR, "sessions", f"SESSION.json")`,
the on-disk path of one session's history file. -/
def historyFilePath (session_id : String) : String :=
  CONVERSATION_HISTORY_DIR ++ "/sessions/" ++ session_id ++ ".json"

/-- `get_sessions` of src/data_utils.py: if `sessions.json` exists it is
parsed with `json.load` (raising `JSONDecodeError` on empty or invalid
content), otherwise the empty list is returned. -/
def get_sessions (disk : Disk) : Except PyErr PyVal :=
  if fileExists (disk SESSIONS_FILE) then
    match disk SESSIONS_FILE with
    | .valid v => .ok v
    | .empty => .error .jsonDecodeError
    | .invalid => .error .jsonDecodeError
    | .absent => .ok (.list [])
  else
    .ok (.list [])

/-- `save_sessions` of src/data_utils.py: `json.dump` of the session list
into `sessions.json`. -/
def save_sessions (disk : Disk) (sessions : PyVal) : Disk :=
  updateDisk disk SESSIONS_FILE (.valid sessions)

/-- Python `name in v` for a string `name`: membership by `==` over a
list, key membership over a dict, substring test over a string,
`TypeError` otherwise. -/
def pyContainsStr (v : PyVal) (s : String) : Except PyErr Bool :=
  match v with
  | .list l => .ok (l.any fun x => pyEqStr x s)
  | .dict l => .ok (l.any fun p => p.1 == s)
  | .str t => .ok (s.isEmpty || decide (2 ≤ (t.splitOn s).length))
  | _ => .error .typeError

/-- Python `l.remove(s)` for a string `s`: drops the first element equal
to `s` (elements of other types compare unequal to a string). -/
def pyListRemoveStr (l : List PyVal) (s : String) : List PyVal :=
  match l with
  | [] => []
  | x :: xs => if pyEqStr x s then xs else x :: pyListRemoveStr xs s

/-- `delete_session` of src/data_utils.py: remove the session's history
file if it exists, then drop the session from `sessions.json` (via
`get_sessions`/`save_sessions`) if present.  `sessions.remove` on a
non-list parsed value would raise `AttributeError`. -/
def delete_session (disk : Disk) (session_name : String) : Except PyErr Disk :=
  let hf := historyFilePath session_name
  let disk1 := if fileExists (disk hf) then updateDisk disk hf .absent else disk
  match get_sessions disk1 with
  | .error e => .error e
  | .ok sessions =>
    match pyContainsStr sessions session_name with
    | .error e => .error e
    | .ok isMem =>
      if isMem then
        match sessions with
        | .list l => .ok (save_sessions disk1 (.list (pyListRemoveStr l session_name)))
        | _ => .error .attributeError
      else
        .ok disk1

/-- `initialize_conversation_history` of src/data_utils.py: absent file or
zero-byte file give the empty history; a `json.JSONDecodeError` is caught,
reported as a warning (second component `true`) and gives the empty
history; a successfully parsed value is converted by the comprehension
`[tuple(pair) for pair in history]`, whose `TypeError` on non-iterable
values is NOT caught.  (`os.makedirs` touches no file.) -/
def initialize_conversation_history (disk : Disk) (session_id : String) :
    Except PyErr (List (List PyVal) × Bool) :=
  match disk (historyFilePath session_id) with
  | .absent => .ok ([], false)
  | .empty => .ok ([], false)
  | .invalid => .ok ([], true)
  | .valid v =>
    match pyIterElems v with
    | .error e => .error e
    | .ok elems =>
      match pyTupleEach elems with
      | .error e => .error e
      | .ok pairs => .ok (pairs, false)

/-- `json.dump([list(pair) for pair in history], f)`: the JSON value
written by `save_conversation_history` for an in-memory history of
`(role, content)` turns. -/
def encodeHistory (history : List (String × PyVal)) : PyVal :=
  .list (history.map fun t => .list [.str t.1, t.2])

/-- `save_conversation_history` of src/data_utils.py: overwrite the
session's history file with the JSON encoding of the full in-memory
history.  (`os.makedirs` touches no file.) -/
def save_conversation_history (disk : Disk) (session_id : String)
    (history : List (String × PyVal)) : Disk :=
  updateDisk disk (historyFilePath session_id) (.valid (encodeHistory history))

/-- The FAISS vector store: its documents and `index.ntotal`, the number
of vectors held by the underlying similarity index. -/
structure VectorStore where
  docs : List String
  ntotal : Nat

/-- `build_vector_store_from_documents` of src/data_utils.py.
`FAISS.from_documents(documents, embeddings)` is the external index
constructor, passed as `fromDocs`; `save_local`'s serialization is passed
as `serialize`.  `os.makedirs(path, exist_ok=True)` touches no index
file.  If the built index holds zero vectors, an error is reported
(third component `true`) and `None` is returned without saving;
otherwise the store is saved at `vector_store_path` and returned. -/
def build_vector_store_from_documents (fromDocs : List String → VectorStore)
    (serialize : VectorStore → PyVal) (disk : Disk) (documents : List String)
    (vector_store_path : String) : Option VectorStore × Disk × Bool :=
  let vector_store := fromDocs documents
  if vector_store.ntotal = 0 then
    (none, disk, true)
  else
    (some vector_store,
     updateDisk disk vector_store_path (.valid (serialize vector_store)),
     false)

/-- `add_documents_to_vector_store` of src/data_utils.py:
`vector_store.add_documents(documents)` embeds the new chunks and appends
their vectors to the index in place, then `save_local(VECTOR_STORE_PATH)`
re-persists the updated store at the fixed global path. -/
def add_documents_to_vector_store (serialize : VectorStore → PyVal)
    (disk : Disk) (vector_store : VectorStore) (documents : List String) :
    VectorStore × Disk :=
  let vs : VectorStore :=
    ⟨vector_store.docs ++ documents, vector_store.ntotal + documents.length⟩
  (vs, updateDisk disk VECTOR_STORE_PATH (.valid (serialize vs)))

/-- The document-upload step of `main` (src/main.py lines 99–114), for a
nonempty chunk batch: build a fresh store at the session's
`vector_store_path` when none exists, otherwise add the chunks to the
existing store; in both branches line 113 then calls
`save_local(vector_store_path)` on the session's store — which raises
`AttributeError` when the build returned `None`. -/
def mainUploadStep (fromDocs : List String → VectorStore)
    (serialize : VectorStore → PyVal) (disk : Disk)
    (existing : Option VectorStore) (documents : List String)
    (vector_store_path : String) : Except PyErr (Option VectorStore × Disk) :=
  match existing with
  | none =>
    match build_vector_store_from_documents fromDocs serialize disk documents
        vector_store_path with
    | (none, _, _) => .error .attributeError
    | (some vs, disk1, _) =>
      .ok (some vs, updateDisk disk1 vector_store_path (.valid (serialize vs)))
  | some vs =>
    match add_documents_to_vector_store serialize disk vs documents with
    | (vs1, disk1) =>
      .ok (some vs1, updateDisk disk1 vector_store_path (.valid (serialize vs1)))

/-- A LangChain chain as used by `conversational_answer`: whether it has
retrieval (`combine_docs_chain`), its call as a retrieval chain
(`chain(dict)`, returning a response dict) and its call as a plain
`LLMChain` (`chain.run(...)`, returning a value the code casts to `str`).
Either call may raise, modelled by `Except`. -/
structure Chain where
  hasCombineDocsChain : Bool
  call : String → List (String × PyVal) → Except PyErr (List (String × PyVal))
  run : String → List (String × PyVal) → Except PyErr PyVal

/-- The fixed cancellation sentinel dict of `conversational_answer`. -/
def answerTerminatedDict : List (String × PyVal) :=
  [("answer", .str "回答已终止。"), ("source_documents", .list [])]

/-- The fixed apology dict returned by `conversational_answer`'s
exception handler. -/
def apologyDict : List (String × PyVal) :=
  [("answer", .str "抱歉，我无法生成回答。"), ("source_documents", .list [])]

/-- The `try:` body of `conversational_answer` (src/data_utils.py
lines 255–284).  The Stop Flag is shared mutable state polled three
times (with a sleep between polls) before the model call; `stopFlag k`
is the value observed at the k-th poll.  The second component records
whether the underlying chain call was issued. -/
def conversationalAnswerBody (chain : Chain) (question : String)
    (stopFlag : Nat → Bool) (history : List (String × PyVal)) :
    Except PyErr (List (String × PyVal)) × Bool :=
  if chain.hasCombineDocsChain then
    if stopFlag 0 || stopFlag 1 || stopFlag 2 then
      (.ok answerTerminatedDict, false)
    else
      match chain.call question history with
      | .ok response =>
        (.ok [("answer", pyGetD response "answer" (.str "")),
              ("source_documents", pyGetD response "source_documents" (.list []))],
         true)
      | .error e => (.error e, true)
  else
    if stopFlag 0 || stopFlag 1 || stopFlag 2 then
      (.ok answerTerminatedDict, false)
    else
      match chain.run question history with
      | .ok response =>
        (.ok [("answer", .str (match response with
                               | .str s => s
                               | v => pyStrOf v)),
              ("source_documents", .list [])],
         true)
      | .error e => (.error e, true)

/-- `conversational_answer` of src/data_utils.py: the `try:` body with
its catch-all `except Exception` handler, which converts any exception
raised inside into the fixed apology dict — the function is total and
never re-raises. -/
def conversational_answer (chain : Chain) (question : String)
    (stopFlag : Nat → Bool) (history : List (String × PyVal)) :
    List (String × PyVal) × Bool :=
  match conversationalAnswerBody chain question stopFlag history with
  | (.ok d, called) => (d, called)
  | (.error _, called) => (apologyDict, called)

/-- The comparison string `"未找到回答。"` of src/main.py line 158. -/
def notFoundText : String := "未找到回答。"

/-- The ungrounded-answer notice appended by src/main.py line 160. -/
def fallbackNoticeText : String := "在文档中未找到相关信息，以下是基于大模型的回答："

/-- The answer-generation step of `main` (src/main.py lines 149–180),
returning the conversation history after the step.  When a qa-chain and
a vector store exist, the grounded answer — the dict returned by
`conversational_answer` — is tested by
`if not answer.strip() or answer == "未找到回答。"`, and on an
empty/not-found answer the fallback chain is invoked after appending the
ungrounded-answer notice; without a qa-chain the fallback chain is used
directly.  `answer.strip()` is attribute access on the dict `answer`. -/
def mainGenerateStep (qaChain : Option Chain) (hasVectorStore : Bool)
    (fallbackChain : Chain) (question : String) (stopFlag : Nat → Bool)
    (history : List (String × PyVal)) :
    Except PyErr (List (String × PyVal)) :=
  match qaChain, hasVectorStore with
  | some qa, true =>
    let answer := (conversational_answer qa question stopFlag history).1
    match pyStrip (.dict answer) with
    | .error e => .error e
    | .ok stripped =>
      if !(pyTruthy stripped) || pyEqStr (.dict answer) notFoundText then
        let history1 := history ++ [("assistant", .str fallbackNoticeText)]
        let fb := (conversational_answer fallbackChain question stopFlag history1).1
        .ok (history1 ++ [("assistant", .dict fb)])
      else
        .ok (history ++ [("assistant", .dict answer)])
  | _, _ =>
    let fb := (conversational_answer fallbackChain question stopFlag history).1
    .ok (history ++ [("assistant", .dict fb)])

/-- Modelled from the spec: the Chunker contract of §4.2.  The source
(`prepare_documents` in src/data_utils.py) delegates the split itself to
LangChain's external `CharacterTextSplitter`, whose implementation is not
part of this repository, so the splitter is modelled from the spec's
words: a purely length-based sliding window producing segments of at
most `maxSize` characters, consecutive segments sharing `overlap`
characters. -/
def chunk (maxSize overlap : Nat) (text : List Char) : List (List Char) :=
  if _h : text.length ≤ maxSize ∨ maxSize ≤ overlap then [text]
  else text.take maxSize :: chunk maxSize overlap (text.drop (maxSize - overlap))
termination_by text.length
decreasing_by
  simp only [List.length_drop]
  omega

/-- `prepare_documents` of src/data_utils.py over the spec-modelled
splitter: split the text into chunks (each produced chunk becomes the
`page_content` of one `Document`).  Observed defaults: `chunk_size=512`,
`chunk_overlap=64`. -/
def prepare_documents (text : List Char) (chunk_size chunk_overlap : Nat) :
    List (List Char) :=
  chunk chunk_size chunk_overlap text

/-- A concrete retrieval chain whose call succeeds with an empty grounded
answer (the no-usable-grounding scenario). -/
def exGroundedChain : Chain :=
  ⟨true, fun _ _ => .ok [("answer", .str ""), ("source_documents", .list [])],
   fun _ _ => .ok (.str "")⟩

/-- A concrete plain (fallback) chain whose run succeeds. -/
def exFallbackChain : Chain :=
  ⟨false, fun _ _ => .error .typeError, fun _ _ => .ok (.str "fallback")⟩

/-- A concrete retrieval chain whose underlying model call raises. -/
def exErrorChain : Chain :=
  ⟨true, fun _ _ => .error .typeError, fun _ _ => .error .typeError⟩

/-- A disk whose only file is an `"s1"` history holding the JSON number 5. -/
def exDiskIntHistory : Disk :=
  fun p => if p = historyFilePath "s1" then .valid (.int 5) else .absent

/-- The empty disk. -/
def exDiskEmpty : Disk := fun _ => FileState.absent

/-- A disk with a session index listing `"s1"` and an `"s1"` history file. -/
def exDiskOneSession : Disk :=
  fun p =>
    if p = SESSIONS_FILE then .valid (.list [.str "s1"])
    else if p = historyFilePath "s1" then .valid (.list []) else .absent

/-- An index constructor producing zero vectors for every chunk batch. -/
def exFromDocsZero : List String → VectorStore := fun _ => ⟨[], 0⟩

/-- A trivial store serialization. -/
def exSerialize : VectorStore → PyVal := fun _ => PyVal.none_

/-- Appending strings appends their character data. -/
theorem string_data_append (s t : String) : (s ++ t).data = s.data ++ t.data := by
  cases s; cases t; rfl

/-- Strings with equal character data are equal. -/
theorem string_eq_of_data {s t : String} (h : s.data = t.data) : s = t := by
  cases s; cases t; exact congrArg String.mk h

/-- Distinct session ids have distinct history-file paths. -/
theorem historyFilePath_inj {a b : String}
    (h : historyFilePath a = historyFilePath b) : a = b := by
  have hd := congrArg String.data h
  simp only [historyFilePath, string_data_append, List.append_assoc] at hd
  exact string_eq_of_data
    (List.append_cancel_right (List.append_cancel_left (List.append_cancel_left hd)))

/-- C1: for a question answered through the grounded retrieval chain, the
empty-grounded-answer check of `main` (src/main.py line 158) evaluates
`answer.strip()` on the dict returned by `conversational_answer` and
raises `AttributeError`, so the claimed fallback invocation behind that
check is never reached.  Concrete run: a grounded chain whose retrieval
yields no usable grounding (empty grounded answer), question "hi", stop
flag unset, empty history. -/
theorem mainGenerateStep_grounded_check_raises :
    mainGenerateStep (some exGroundedChain) true exFallbackChain "hi"
      (fun _ => false) [] = .error .attributeError := rfl

/-- C2: if the Stop Flag reads true at any of the three poll checkpoints
that come before the model call, `conversational_answer` returns the fixed
"answer terminated" sentinel dict (whose source-documents list is empty)
and issues no underlying model call. -/
theorem conversational_answer_stop_terminates (chain : Chain)
    (question : String) (stopFlag : Nat → Bool)
    (history : List (String × PyVal)) (k : Nat) (hk : k < 3)
    (hs : stopFlag k = true) :
    conversational_answer chain question stopFlag history
      = (answerTerminatedDict, false)
    ∧ answerTerminatedDict.lookup "source_documents" = some (.list []) := by
  have h3 : (stopFlag 0 || stopFlag 1 || stopFlag 2) = true := by
    interval_cases k <;> simp [hs]
  refine ⟨?_, rfl⟩
  cases hcd : chain.hasCombineDocsChain <;>
    simp [conversational_answer, conversationalAnswerBody, hcd, h3]

/-- Witness for C2 at a concrete chain, question and stop flag. -/
theorem conversational_answer_stop_terminates_witness :
    conversational_answer exGroundedChain "q" (fun _ => true) []
      = (answerTerminatedDict, false)
    ∧ answerTerminatedDict.lookup "source_documents" = some (.list []) :=
  conversational_answer_stop_terminates exGroundedChain "q" (fun _ => true) []
    0 (by omega) rfl

/-- C3: when the poll checkpoints pass and the underlying model call
raises, `conversational_answer` returns the fixed apology dict (with an
empty source-documents list) and — being a total function into result
dicts, matching the catch-all `except Exception` — never re-raises. -/
theorem conversational_answer_exception_apology (chain : Chain)
    (question : String) (stopFlag : Nat → Bool)
    (history : List (String × PyVal)) (e : PyErr)
    (h0 : stopFlag 0 = false) (h1 : stopFlag 1 = false)
    (h2 : stopFlag 2 = false)
    (hcall : chain.hasCombineDocsChain = true →
      chain.call question history = .error e)
    (hrun : chain.hasCombineDocsChain = false →
      chain.run question history = .error e) :
    conversational_answer chain question stopFlag history = (apologyDict, true) := by
  cases hcd : chain.hasCombineDocsChain
  · simp [conversational_answer, conversationalAnswerBody, hcd, h0, h1, h2,
      hrun hcd]
  · simp [conversational_answer, conversationalAnswerBody, hcd, h0, h1, h2,
      hcall hcd]

/-- Witness for C3 at a concrete failing chain. -/
theorem conversational_answer_exception_apology_witness :
    conversational_answer exErrorChain "q" (fun _ => false) []
      = (apologyDict, true) :=
  conversational_answer_exception_apology exErrorChain "q" (fun _ => false) []
    .typeError rfl rfl rfl (fun _ => rfl) (fun h => nomatch h)

/-- C6: when building the vector index yields zero vectors, the build
reports the failure (third component `true`) and returns no index
(`none`) rather than an empty index, and the disk is returned unchanged,
so every prior on-disk index file is preserved. -/
theorem build_vector_store_zero_vectors_fails
    (fromDocs : List String → VectorStore) (serialize : VectorStore → PyVal)
    (disk : Disk) (documents : List String) (vector_store_path : String)
    (h : (fromDocs documents).ntotal = 0) :
    build_vector_store_from_documents fromDocs serialize disk documents
      vector_store_path = (none, disk, true) := by
  simp [build_vector_store_from_documents, h]

/-- Witness for C6 at a concrete all-failing embedding. -/
theorem build_vector_store_zero_vectors_fails_witness :
    build_vector_store_from_documents exFromDocsZero exSerialize exDiskEmpty
      ["chunk"] VECTOR_STORE_PATH = (none, exDiskEmpty, true) :=
  build_vector_store_zero_vectors_fails exFromDocsZero exSerialize exDiskEmpty
    ["chunk"] VECTOR_STORE_PATH rfl

/-- C7: adding a chunk batch to an existing store in the upload step of
`main` inserts the chunks into the store in place (its documents become
the old documents followed by the batch) and, after the step, the
session's `vector_store_path` — the path the store was built at — again
holds the serialization of the updated store.
(`add_documents_to_vector_store` itself additionally re-persists the
updated store at the fixed global `VECTOR_STORE_PATH`, the path that
`initialize_vector_store` loads from.) -/
theorem mainUploadStep_add_persists_same_path
    (fromDocs : List String → VectorStore) (serialize : VectorStore → PyVal)
    (disk : Disk) (vs : VectorStore) (documents : List String) (p : String) :
    ∃ vs1 disk1,
      mainUploadStep fromDocs serialize disk (some vs) documents p
        = .ok (some vs1, disk1)
      ∧ vs1.docs = vs.docs ++ documents
      ∧ disk1 p = .valid (serialize vs1)
      ∧ (add_documents_to_vector_store serialize disk vs documents).2
          VECTOR_STORE_PATH = .valid (serialize vs1) := by
  refine ⟨⟨vs.docs ++ documents, vs.ntotal + documents.length⟩, _, rfl, rfl,
    ?_, ?_⟩ <;>
  simp [add_documents_to_vector_store, updateDisk]

/-- Tuple conversion succeeds on an encoded history and yields exactly
its turns as two-element tuples. -/
theorem pyTupleEach_encode (history : List (String × PyVal)) :
    pyTupleEach (history.map fun t => PyVal.list [PyVal.str t.1, t.2])
      = .ok (history.map fun t => [PyVal.str t.1, t.2]) := by
  induction history with
  | nil => rfl
  | cons a l ih => simp [pyTupleEach, pyIterElems, ih]

/-- Counterexample to C4 as stated: a history file whose content is the
parseable JSON value `5` makes `initialize_conversation_history` raise an
uncaught `TypeError` at `[tuple(pair) for pair in history]` — loading
history can raise an exception. -/
theorem initialize_conversation_history_raises_cex :
    initialize_conversation_history exDiskIntHistory "s1"
      = .error .typeError := rfl

/-- C4 (amended): loading a session's history returns the empty sequence
when the history file does not exist or is empty, and returns the empty
sequence plus a reported warning when its content is not parseable JSON —
none of these cases raises; moreover a file holding an encoded history
loads without raising, yielding exactly its turns.  (Only a file that
parses to JSON whose value or elements are not iterable raises an
uncaught `TypeError`.) -/
theorem initialize_conversation_history_safe_cases (disk : Disk)
    (session_id : String) :
    (disk (historyFilePath session_id) = .absent →
      initialize_conversation_history disk session_id = .ok ([], false))
    ∧ (disk (historyFilePath session_id) = .empty →
      initialize_conversation_history disk session_id = .ok ([], false))
    ∧ (disk (historyFilePath session_id) = .invalid →
      initialize_conversation_history disk session_id = .ok ([], true))
    ∧ (∀ history : List (String × PyVal),
      disk (historyFilePath session_id) = .valid (encodeHistory history) →
      initialize_conversation_history disk session_id
        = .ok (history.map fun t => [PyVal.str t.1, t.2], false)) := by
  refine ⟨fun h => ?_, fun h => ?_, fun h => ?_, fun history h => ?_⟩ <;>
    simp [initialize_conversation_history, h, encodeHistory, pyIterElems,
      pyTupleEach_encode]

/-- Witness for C4 (amended) on the empty disk. -/
theorem initialize_conversation_history_safe_cases_witness :
    initialize_conversation_history exDiskEmpty "s1" = .ok ([], false) :=
  (initialize_conversation_history_safe_cases exDiskEmpty "s1").1 rfl

/-- C9: saving session A's history writes only A's history file — every
other path, in particular B's history file for any other session id B, is
unchanged — and afterwards A's file holds exactly the JSON encoding of
A's full in-memory history, which loads back as exactly those turns. -/
theorem save_conversation_history_isolated_exact (disk : Disk)
    (A B : String) (history : List (String × PyVal)) (hAB : A ≠ B) :
    (∀ p, p ≠ historyFilePath A →
      save_conversation_history disk A history p = disk p)
    ∧ save_conversation_history disk A history (historyFilePath B)
        = disk (historyFilePath B)
    ∧ save_conversation_history disk A history (historyFilePath A)
        = .valid (encodeHistory history)
    ∧ initialize_conversation_history (save_conversation_history disk A history) A
        = .ok (history.map fun t => [PyVal.str t.1, t.2], false) := by
  have hne : historyFilePath B ≠ historyFilePath A :=
    fun h => hAB (historyFilePath_inj h).symm
  refine ⟨fun p hp => ?_, ?_, ?_, ?_⟩
  · simp [save_conversation_history, updateDisk, hp]
  · simp [save_conversation_history, updateDisk, hne]
  · simp [save_conversation_history, updateDisk]
  · exact (initialize_conversation_history_safe_cases _ A).2.2.2 history
      (by simp [save_conversation_history, updateDisk])

/-- Witness for C9 at concrete sessions "s1", "s2" and a one-turn history. -/
theorem save_conversation_history_isolated_exact_witness :
    save_conversation_history exDiskEmpty "s1" [("user", PyVal.str "hi")]
      (historyFilePath "s2") = exDiskEmpty (historyFilePath "s2")
    ∧ initialize_conversation_history
        (save_conversation_history exDiskEmpty "s1" [("user", PyVal.str "hi")])
        "s1" = .ok ([[PyVal.str "user", PyVal.str "hi"]], false) :=
  ⟨(save_conversation_history_isolated_exact exDiskEmpty "s1" "s2"
      [("user", PyVal.str "hi")] (by decide)).2.1,
   (save_conversation_history_isolated_exact exDiskEmpty "s1" "s2"
      [("user", PyVal.str "hi")] (by decide)).2.2.2⟩

/-- C10: on every return path (the exception path included — the function
is total), `conversational_answer` returns a dict with exactly the keys
"answer" and "source_documents", the "answer" value is a string and the
"source_documents" value is a list, provided the retrieval chain's
response dict holds a string under "answer" and a list under
"source_documents" when those keys are present (the external
chat-completion contract); and whenever the chain has no
`combine_docs_chain` attribute, the returned source-documents list is
empty. -/
theorem conversational_answer_result_shape (chain : Chain)
    (question : String) (stopFlag : Nat → Bool)
    (history : List (String × PyVal))
    (hans : ∀ r, chain.call question history = .ok r →
      ∀ v, r.lookup "answer" = some v → ∃ s, v = PyVal.str s)
    (hdocs : ∀ r, chain.call question history = .ok r →
      ∀ v, r.lookup "source_documents" = some v → ∃ l, v = PyVal.list l) :
    ((conversational_answer chain question stopFlag history).1.map Prod.fst
      = ["answer", "source_documents"])
    ∧ (∃ s, (conversational_answer chain question stopFlag history).1.lookup
        "answer" = some (PyVal.str s))
    ∧ (∃ l, (conversational_answer chain question stopFlag history).1.lookup
        "source_documents" = some (PyVal.list l))
    ∧ (chain.hasCombineDocsChain = false →
      (conversational_answer chain question stopFlag history).1.lookup
        "source_documents" = some (PyVal.list [])) := by
  cases hcd : chain.hasCombineDocsChain
  · cases hst : (stopFlag 0 || stopFlag 1 || stopFlag 2)
    · cases hrun : chain.run question history with
      | ok response =>
        refine ⟨?_, ?_, ?_, fun _ => ?_⟩ <;>
          simp [conversational_answer, conversationalAnswerBody, hcd, hst,
            hrun, List.lookup]
      | error e =>
        refine ⟨?_, ?_, ?_, fun _ => ?_⟩ <;>
          simp [conversational_answer, conversationalAnswerBody, hcd, hst,
            hrun, apologyDict, List.lookup]
    · refine ⟨?_, ?_, ?_, fun _ => ?_⟩ <;>
        simp [conversational_answer, conversationalAnswerBody, hcd, hst,
          answerTerminatedDict, List.lookup]
  · cases hst : (stopFlag 0 || stopFlag 1 || stopFlag 2)
    · cases hcall : chain.call question history with
      | ok response =>
        have hshape :
            (conversational_answer chain question stopFlag history).1
              = [("answer", pyGetD response "answer" (.str "")),
                 ("source_documents",
                   pyGetD response "source_documents" (.list []))] := by
          simp [conversational_answer, conversationalAnswerBody, hcd, hst, hcall]
        refine ⟨?_, ?_, ?_, fun hfalse => ?_⟩
        · simp [hshape]
        · rw [hshape]
          rcases hv : response.lookup "answer" with _ | v
          · exact ⟨"", by simp [List.lookup, pyGetD, hv]⟩
          · rcases hans response hcall v hv with ⟨s, rfl⟩
            exact ⟨s, by simp [List.lookup, pyGetD, hv]⟩
        · rw [hshape]
          rcases hv : response.lookup "source_documents" with _ | v
          · exact ⟨[], by simp [List.lookup, pyGetD, hv]⟩
          · rcases hdocs response hcall v hv with ⟨l, rfl⟩
            exact ⟨l, by simp [List.lookup, pyGetD, hv]⟩
        · exact absurd hfalse (by simp)
      | error e =>
        refine ⟨?_, ?_, ?_, fun hfalse => ?_⟩ <;>
          simp [conversational_answer, conversationalAnswerBody, hcd, hst,
            hcall, apologyDict, List.lookup]
    · refine ⟨?_, ?_, ?_, fun hfalse => ?_⟩ <;>
        simp [conversational_answer, conversationalAnswerBody, hcd, hst,
          answerTerminatedDict, List.lookup]

/-- Witness for C10 at a concrete fallback chain. -/
theorem conversational_answer_result_shape_witness :
    ((conversational_answer exFallbackChain "q" (fun _ => false) []).1.map
      Prod.fst = ["answer", "source_documents"])
    ∧ (∃ s, (conversational_answer exFallbackChain "q" (fun _ => false) []).1.lookup
        "answer" = some (PyVal.str s))
    ∧ (∃ l, (conversational_answer exFallbackChain "q" (fun _ => false) []).1.lookup
        "source_documents" = some (PyVal.list l))
    ∧ (exFallbackChain.hasCombineDocsChain = false →
      (conversational_answer exFallbackChain "q" (fun _ => false) []).1.lookup
        "source_documents" = some (PyVal.list [])) :=
  conversational_answer_result_shape exFallbackChain "q" (fun _ => false) []
    (fun _ hr => nomatch hr) (fun _ hr => nomatch hr)

/-- A path can only be `os.path.exists`-false when no file is there. -/
theorem fileExists_eq_false_iff (f : FileState) :
    fileExists f = false ↔ f = .absent := by
  cases f <;> simp [fileExists]

/-- The session index file is never a session's history file. -/
theorem sessionsFile_ne_historyFilePath (name : String) :
    SESSIONS_FILE ≠ historyFilePath name := by
  intro h
  have hl := congrArg String.length h
  simp only [historyFilePath, String.length_append] at hl
  have e1 : SESSIONS_FILE.length = 13 := rfl
  have e2 : CONVERSATION_HISTORY_DIR.length = 22 := rfl
  have e3 : ("/sessions/" : String).length = 10 := rfl
  have e4 : (".json" : String).length = 5 := rfl
  omega

/-- Python membership of a string in an encoded session list decides
list membership. -/
theorem anyEq_map_str (names : List String) (s : String) :
    ((names.map PyVal.str).any fun x => pyEqStr x s) = decide (s ∈ names) := by
  induction names with
  | nil => rfl
  | cons a l ih =>
    have hh : pyEqStr (PyVal.str a) s = (a == s) := rfl
    rw [List.map_cons, List.any_cons, hh, ih]
    by_cases h : a = s
    · subst h; simp
    · simp [List.mem_cons, h, Ne.symm h]

/-- Python `remove` on an encoded session list is `List.erase`. -/
theorem pyListRemoveStr_map (names : List String) (s : String) :
    pyListRemoveStr (names.map PyVal.str) s = (names.erase s).map PyVal.str := by
  induction names with
  | nil => rfl
  | cons a l ih =>
    by_cases h : a = s
    · subst h
      simp [pyListRemoveStr, pyEqStr, List.erase_cons_head]
    · rw [List.map_cons, List.erase_cons_tail (by simpa using h)]
      simp [pyListRemoveStr, pyEqStr, h, ih]

/-- `get_sessions` on a disk whose session index file holds a parsed
value returns that value. -/
theorem get_sessions_of_valid (disk : Disk) (v : PyVal)
    (h : disk SESSIONS_FILE = .valid v) : get_sessions disk = .ok v := by
  simp [get_sessions, h, fileExists]

/-- One run of `delete_session` on a well-formed session index: it
succeeds, the session's history file is gone, the persisted index is the
old one with the session's first entry erased, and it is a strict no-op
when neither the history file nor the index entry existed. -/
theorem delete_session_wf_char (disk : Disk) (names : List String)
    (name : String)
    (hwf : disk SESSIONS_FILE = FileState.valid (.list (names.map PyVal.str))) :
    ∃ disk1, delete_session disk name = .ok disk1
      ∧ disk1 (historyFilePath name) = .absent
      ∧ disk1 SESSIONS_FILE
          = .valid (.list ((names.erase name).map PyVal.str))
      ∧ (disk (historyFilePath name) = .absent ∧ name ∉ names →
          disk1 = disk) := by
  have hne : SESSIONS_FILE ≠ historyFilePath name :=
    sessionsFile_ne_historyFilePath name
  have hne' : historyFilePath name ≠ SESSIONS_FILE := fun h => hne h.symm
  by_cases hmem : name ∈ names <;>
    by_cases hex : fileExists (disk (historyFilePath name)) = true
  · have hd1 : (updateDisk disk (historyFilePath name) FileState.absent)
        SESSIONS_FILE = FileState.valid (.list (names.map PyVal.str)) := by
      simp [updateDisk, hne, hwf]
    refine ⟨updateDisk (updateDisk disk (historyFilePath name) .absent)
      SESSIONS_FILE (.valid (.list ((names.erase name).map PyVal.str))),
      ?_, ?_, ?_, ?_⟩
    · simp [delete_session, hex, get_sessions_of_valid _ _ hd1,
        pyContainsStr, anyEq_map_str, hmem, save_sessions,
        pyListRemoveStr_map]
    · simp [updateDisk, hne']
    · simp [updateDisk]
    · rintro ⟨habs, -⟩
      rw [habs] at hex
      simp [fileExists] at hex
  · have habs : disk (historyFilePath name) = .absent :=
      (fileExists_eq_false_iff _).mp (by simpa using hex)
    refine ⟨updateDisk disk SESSIONS_FILE
      (.valid (.list ((names.erase name).map PyVal.str))), ?_, ?_, ?_, ?_⟩
    · simp [delete_session, habs, fileExists,
        get_sessions_of_valid _ _ hwf, pyContainsStr, anyEq_map_str, hmem,
        save_sessions, pyListRemoveStr_map]
    · simp [updateDisk, hne', habs]
    · simp [updateDisk]
    · rintro ⟨-, hnm⟩
      exact absurd hmem hnm
  · have hd1 : (updateDisk disk (historyFilePath name) FileState.absent)
        SESSIONS_FILE = FileState.valid (.list (names.map PyVal.str)) := by
      simp [updateDisk, hne, hwf]
    refine ⟨updateDisk disk (historyFilePath name) .absent, ?_, ?_, ?_, ?_⟩
    · simp [delete_session, hex, get_sessions_of_valid _ _ hd1,
        pyContainsStr, anyEq_map_str, hmem]
    · simp [updateDisk]
    · simp [updateDisk, hne, hwf, List.erase_of_not_mem hmem]
    · rintro ⟨habs, -⟩
      rw [habs] at hex
      simp [fileExists] at hex
  · have habs : disk (historyFilePath name) = .absent :=
      (fileExists_eq_false_iff _).mp (by simpa using hex)
    refine ⟨disk, ?_, habs, ?_, fun _ => rfl⟩
    · simp [delete_session, habs, fileExists,
        get_sessions_of_valid _ _ hwf, pyContainsStr, anyEq_map_str, hmem]
    · rw [hwf, List.erase_of_not_mem hmem]

/-- C5: on a duplicate-free persisted session index, `delete_session`
removes the session's on-disk history file and its entry from the
persisted index (afterwards the Python membership test for the id over
the persisted list is false); deleting an id that does not exist — no
history file and no index entry — is a no-op returning no error and
changing no state, and in particular deleting the same id a second time
is such a no-op. -/
theorem delete_session_removes_and_idempotent (disk : Disk)
    (names : List String) (name : String)
    (hwf : disk SESSIONS_FILE = FileState.valid (.list (names.map PyVal.str)))
    (hnd : names.Nodup) :
    ∃ disk1, delete_session disk name = .ok disk1
      ∧ disk1 (historyFilePath name) = .absent
      ∧ disk1 SESSIONS_FILE
          = .valid (.list ((names.erase name).map PyVal.str))
      ∧ pyContainsStr (.list ((names.erase name).map PyVal.str)) name
          = .ok false
      ∧ (disk (historyFilePath name) = .absent ∧ name ∉ names →
          disk1 = disk)
      ∧ delete_session disk1 name = .ok disk1 := by
  obtain ⟨disk1, heq, habs1, hsess1, hnoop⟩ :=
    delete_session_wf_char disk names name hwf
  refine ⟨disk1, heq, habs1, hsess1, ?_, hnoop, ?_⟩
  · simp [pyContainsStr, anyEq_map_str, hnd.not_mem_erase]
  · obtain ⟨disk2, heq2, -, -, hnoop2⟩ :=
      delete_session_wf_char disk1 (names.erase name) name hsess1
    rw [heq2, hnoop2 ⟨habs1, hnd.not_mem_erase⟩]

/-- Witness for C5 at a concrete one-session store. -/
theorem delete_session_removes_and_idempotent_witness :
    ∃ disk1, delete_session exDiskOneSession "s1" = .ok disk1
      ∧ disk1 (historyFilePath "s1") = .absent
      ∧ disk1 SESSIONS_FILE
          = .valid (.list (((["s1"] : List String).erase "s1").map PyVal.str))
      ∧ pyContainsStr
          (.list (((["s1"] : List String).erase "s1").map PyVal.str)) "s1"
          = .ok false
      ∧ (exDiskOneSession (historyFilePath "s1") = .absent
          ∧ "s1" ∉ (["s1"] : List String) → disk1 = exDiskOneSession)
      ∧ delete_session disk1 "s1" = .ok disk1 :=
  delete_session_removes_and_idempotent exDiskOneSession ["s1"] "s1" rfl
    (by decide)

/-- Size bound for the sliding-window splitter: with a positive step, no
produced chunk exceeds `maxSize` characters. -/
theorem chunk_size_le (maxSize overlap : Nat) (h2 : overlap < maxSize) :
    ∀ n (text : List Char), text.length ≤ n →
      ∀ c ∈ chunk maxSize overlap text, c.length ≤ maxSize := by
  intro n
  induction n with
  | zero =>
    intro text hlen c hc
    rw [chunk.eq_def] at hc
    split at hc
    · rw [List.mem_singleton] at hc
      subst hc
      omega
    · rename_i h
      exact absurd (Or.inl (by omega : text.length ≤ maxSize)) h
  | succ n ih =>
    intro text hlen c hc
    rw [chunk.eq_def] at hc
    split at hc
    · rename_i h
      rw [List.mem_singleton] at hc
      subst hc
      rcases h with h | h
      · exact h
      · omega
    · rename_i h
      rcases List.mem_cons.mp hc with rfl | hc2
      · rw [List.length_take]; omega
      · exact ih (text.drop (maxSize - overlap))
          (by rw [List.length_drop]; omega) c hc2

/-- Coverage for the sliding-window splitter: every character position of
the input occurs inside some produced chunk. -/
theorem chunk_covers (maxSize overlap : Nat) (h2 : overlap < maxSize) :
    ∀ n (text : List Char), text.length ≤ n →
      ∀ i (hi : i < text.length),
        ∃ c ∈ chunk maxSize overlap text, text.get ⟨i, hi⟩ ∈ c := by
  intro n
  induction n with
  | zero =>
    intro text hlen i hi
    omega
  | succ n ih =>
    intro text hlen i hi
    rw [chunk.eq_def]
    split
    · exact ⟨text, List.mem_singleton.mpr rfl, List.get_mem text i hi⟩
    · rename_i h
      by_cases him : i < maxSize
      · refine ⟨text.take maxSize, List.mem_cons_self _ _, ?_⟩
        have hti : i < (text.take maxSize).length := by
          rw [List.length_take]; omega
        have hmem := List.getElem_mem hti
        rw [List.getElem_take] at hmem
        simpa [List.get_eq_getElem] using hmem
      · have hlt : i - (maxSize - overlap)
            < (text.drop (maxSize - overlap)).length := by
          rw [List.length_drop]; omega
        obtain ⟨c, hc, hmemc⟩ := ih (text.drop (maxSize - overlap))
          (by rw [List.length_drop]; omega) (i - (maxSize - overlap)) hlt
        refine ⟨c, List.mem_cons_of_mem _ hc, ?_⟩
        have hidx : maxSize - overlap + (i - (maxSize - overlap)) = i := by
          omega
        have heq : (text.drop (maxSize - overlap)).get
            ⟨i - (maxSize - overlap), hlt⟩ = text.get ⟨i, hi⟩ := by
          rw [List.get_eq_getElem, List.get_eq_getElem, List.getElem_drop]
          simp only [hidx]
        rw [heq] at hmemc
        exact hmemc

/-- C8 (spec-modelled Chunker): for every text of length at least 1 and
chunk parameters with `overlap < maxSize`, splitting covers the entire
input — every character of the input appears in at least one produced
chunk — and no produced chunk exceeds `maxSize` characters. -/
theorem prepare_documents_covers_and_bounded (text : List Char)
    (maxSize overlap : Nat) (_hL : 1 ≤ text.length)
    (hov : overlap < maxSize) :
    (∀ i (hi : i < text.length),
      ∃ c ∈ prepare_documents text maxSize overlap, text.get ⟨i, hi⟩ ∈ c)
    ∧ ∀ c ∈ prepare_documents text maxSize overlap, c.length ≤ maxSize := by
  constructor
  · intro i hi
    exact chunk_covers maxSize overlap hov text.length text le_rfl i hi
  · exact chunk_size_le maxSize overlap hov text.length text le_rfl

/-- Witness for C8 at the text "abc" with maxSize 2, overlap 1. -/
theorem prepare_documents_covers_and_bounded_witness :
    (∃ c ∈ prepare_documents ['a', 'b', 'c'] 2 1,
      (['a', 'b', 'c'] : List Char).get ⟨0, by decide⟩ ∈ c)
    ∧ ∀ c ∈ prepare_documents ['a', 'b', 'c'] 2 1, c.length ≤ 2 :=
  ⟨(prepare_documents_covers_and_bounded ['a', 'b', 'c'] 2 1 (by decide)
      (by decide)).1 0 (by decide),
   (prepare_documents_covers_and_bounded ['a', 'b', 'c'] 2 1 (by decide)
      (by decide)).2⟩
